import Mathlib

/-!
Verification of the shopping-list generation engine of the meal-planner
application (src/meals/viewmodels/shopping_list.py and the repositories it
uses).  The Python data layer is shallowly embedded: database rows become
structures, the SQLAlchemy session becomes an explicit `DB` value threaded
through the operations, Python `float` quantities are modelled as rationals
(the specification declares them decimal; this idealisation is exact for
every sum evaluated here, and where float rounding is material — the
order-independence of totals — a separate binary64 nearest-even rounding
model of float addition is used instead), calendar dates are modelled by
their ordinal encoding as naturals (only comparison is used), and exceptions
become an explicit `Outcome` type distinguishing exceptions caught by the
viewmodel (`handled`) from exceptions that propagate out of it (`fault`).
Storage failures (SQLAlchemyError) are injected through an explicit
`failAt` oracle naming the session operation that raises.
-/

namespace MealPlanner

/-- An ingredient row (models.recipe.Ingredient): name, quantity, unit,
optional category string. -/
structure Ingredient where
  name : String
  quantity : ℚ
  unit : String
  category : Option String
deriving DecidableEq, Repr

/-- A recipe row together with its owned ingredient rows
(models.recipe.Recipe with its `ingredients` relationship). -/
structure RecipeRow where
  id : Nat
  name : String
  ingredients : List Ingredient
deriving DecidableEq, Repr

/-- A meal-plan row (models.meal_plan.MealPlan) with the recipe ids from the
meal_plan_recipes association table. -/
structure MealPlanRow where
  id : Nat
  name : String
  date : Nat
  meal_type : String
  recipeIds : List Nat
deriving DecidableEq, Repr

/-- A shopping-list item row as stored / read back
(models.shopping_list.ShoppingListItem). -/
structure ShoppingListItemData where
  ingredient_name : String
  total_quantity : ℚ
  unit : String
  category : Option String
  is_purchased : Bool
deriving DecidableEq, Repr

/-- A shopping-list row with its items
(models.shopping_list.ShoppingList joined with its `items`). -/
structure ShoppingListRow where
  id : Nat
  name : String
  date_range_start : Nat
  date_range_end : Nat
  items : List ShoppingListItemData
deriving DecidableEq, Repr

/-- The relational store visible to the engine: meal-plan rows, recipe rows,
committed shopping lists, and the next server-assigned id. -/
structure DB where
  meal_plans : List MealPlanRow
  recipes : List RecipeRow
  shopping_lists : List ShoppingListRow
  next_id : Nat
deriving DecidableEq, Repr

/-- The two application exception kinds the viewmodel catches
(utils.exceptions.ValidationException / DatabaseException). -/
inductive MealsError where
  | validationError (msg : String)
  | databaseError (msg : String)
deriving DecidableEq, Repr

/-- Outcome of a viewmodel call: a returned value, an exception caught by the
viewmodel (Python then returns None), or an exception that propagates out of
the viewmodel uncaught. -/
inductive Outcome (α : Type) where
  | ok (v : α)
  | handled (e : MealsError)
  | fault (msg : String)
deriving DecidableEq, Repr

/-- Collaborator-call trace of one `generate` run: meal-plan queries
(the range query plus each get_with_recipes), recipe queries (the per-recipe
session query), and store create operations. -/
structure Trace where
  meal_plan_queries : Nat
  recipe_queries : Nat
  store_creates : Nat
deriving DecidableEq, Repr

/-! ## Aggregation core (lines 284-315 of the viewmodel) -/

/-- The aggregation key of line 298: `(ingredient.name, ingredient.unit,
ingredient.category)`, compared by exact equality. -/
structure AggKey where
  name : String
  unit : String
  category : Option String
deriving DecidableEq, Repr

/-- The aggregation key of an ingredient line. -/
def keyOf (i : Ingredient) : AggKey :=
  ⟨i.name, i.unit, i.category⟩

/-- One fold step on the insertion-ordered mapping, exactly the Python dict
update of lines 300-304: add to an existing entry in place, otherwise append
a fresh entry. -/
def addLine : List (AggKey × ℚ) → AggKey → ℚ → List (AggKey × ℚ)
  | [], k, q => [(k, q)]
  | kv :: rest, k, q =>
    if kv.1 = k then (kv.1, kv.2 + q) :: rest
    else kv :: addLine rest k q

/-- The ingredients_map after folding every ingredient line in traversal
order (lines 284-304). -/
def aggregate (lines : List Ingredient) : List (AggKey × ℚ) :=
  lines.foldl (fun m i => addLine m (keyOf i) i.quantity) []

/-- Lookup in the insertion-ordered mapping (Python `key in ingredients_map`
/ `ingredients_map[key]`). -/
def getQ : List (AggKey × ℚ) → AggKey → Option ℚ
  | [], _ => none
  | kv :: rest, k => if kv.1 = k then some kv.2 else getQ rest k

/-- Total quantity of the lines whose aggregation key is exactly `k`. -/
def sumKey (lines : List Ingredient) (k : AggKey) : ℚ :=
  ((lines.filter (fun i => keyOf i = k)).map Ingredient.quantity).sum

/-- Whether some line has aggregation key `k`. -/
def hasKey (lines : List Ingredient) (k : AggKey) : Bool :=
  lines.any (fun i => decide (keyOf i = k))

/-- items_data built from the mapping (lines 306-315): one item per entry,
`is_purchased = False` for every item. -/
def buildItems (m : List (AggKey × ℚ)) : List ShoppingListItemData :=
  m.map (fun kv => ⟨kv.1.name, kv.2, kv.1.unit, kv.1.category, false⟩)

/-! ## Collaborator lookups -/

/-- `session.query(Recipe).filter(Recipe.id == rid).first()`. -/
def findRecipe (db : DB) (rid : Nat) : Option RecipeRow :=
  db.recipes.find? (fun r => r.id == rid)

/-- `MealPlanRepository.get_with_recipes`: select the meal plan by id. -/
def findPlan (db : DB) (pid : Nat) : Option MealPlanRow :=
  db.meal_plans.find? (fun p => p.id == pid)

/-- The ORDER BY (date, meal_type) of `get_by_date_range`: date ascending,
ties by the stored meal-type string. -/
def planOrder (a b : MealPlanRow) : Prop :=
  a.date < b.date ∨ (a.date = b.date ∧ a.meal_type ≤ b.meal_type)

instance : DecidableRel planOrder := fun a b => by
  unfold planOrder
  infer_instance

/-- `MealPlanRepository.get_by_date_range`: all meal plans with date in
`[s, e]`, ordered by date then meal type. -/
def get_by_date_range (db : DB) (s e : Nat) : List MealPlanRow :=
  List.insertionSort planOrder
    (db.meal_plans.filter (fun p => decide (s ≤ p.date ∧ p.date ≤ e)))

/-- Resolve the ingredient lines of a list of referenced recipes in order.
`none` models the unresolvable-recipe case: `first()` returned Python None
and the subsequent `.ingredients` access raises AttributeError. -/
def recipeLines (db : DB) : List Nat → Option (List Ingredient)
  | [] => some []
  | rid :: rest =>
    match findRecipe db rid with
    | none => none
    | some r => (recipeLines db rest).map (fun ls => r.ingredients ++ ls)

/-- Ingredient lines contributed by the meal plans in traversal order
(the nested loops of lines 286-304): for each plan, get_with_recipes, then
resolve each referenced recipe.  `none` models the AttributeError fault. -/
def planLines (db : DB) : List MealPlanRow → Option (List Ingredient)
  | [] => some []
  | p :: rest =>
    match findPlan db p.id with
    | none => none
    | some pFull =>
      match recipeLines db pFull.recipeIds, planLines db rest with
      | some ls, some more => some (ls ++ more)
      | _, _ => none

/-- Ingredient lines of one referenced recipe (empty when unresolvable;
only used under a resolvability hypothesis). -/
def recipeLinesOf (db : DB) (rid : Nat) : List Ingredient :=
  ((findRecipe db rid).map RecipeRow.ingredients).getD []

/-- Whether every recipe id in the list resolves. -/
def allRecipesResolve (db : DB) (rids : List Nat) : Bool :=
  rids.all (fun rid => (findRecipe db rid).isSome)

/-- Ingredient lines contributed by one meal plan (empty when unresolvable). -/
def planLinesOf (db : DB) (p : MealPlanRow) : List Ingredient :=
  match findPlan db p.id with
  | none => []
  | some pFull => (pFull.recipeIds.map (recipeLinesOf db)).flatten

/-- Whether a meal plan and all its referenced recipes resolve. -/
def planResolves (db : DB) (p : MealPlanRow) : Bool :=
  match findPlan db p.id with
  | none => false
  | some pFull => allRecipesResolve db pFull.recipeIds

/-- Number of per-recipe session queries issued while processing one
recipe-id list (the loop stops at the first unresolvable recipe). -/
def recipeQueryCount (db : DB) : List Nat → Nat
  | [] => 0
  | rid :: rest =>
    match findRecipe db rid with
    | none => 1
    | some _ => 1 + recipeQueryCount db rest

/-- Number of get_with_recipes queries issued over the plan loop. -/
def planQueryCount (db : DB) : List MealPlanRow → Nat
  | [] => 0
  | p :: rest =>
    match findPlan db p.id with
    | none => 1
    | some pFull =>
      if allRecipesResolve db pFull.recipeIds
      then 1 + planQueryCount db rest
      else 1

/-- Total number of per-recipe session queries issued over the plan loop. -/
def recipeQueriesTotal (db : DB) : List MealPlanRow → Nat
  | [] => 0
  | p :: rest =>
    match findPlan db p.id with
    | none => 0
    | some pFull =>
      if allRecipesResolve db pFull.recipeIds
      then recipeQueryCount db pFull.recipeIds + recipeQueriesTotal db rest
      else recipeQueryCount db pFull.recipeIds

/-! ## Shopping-list store (repositories/shopping_list.py) -/

/-- Number of session operations performed inside
`ShoppingListRepository.create_with_items` before it returns:
add(shopping_list), flush, one add per item, commit. -/
def createWithItemsOps (items : List ShoppingListItemData) : Nat :=
  2 + items.length + 1

/-- Whether the injected SQLAlchemyError oracle hits one of the first `ops`
session operations. -/
def hitsFailure (failAt : Option Nat) (ops : Nat) : Bool :=
  match failAt with
  | none => false
  | some k => decide (k < ops)

/-- `ShoppingListRepository.create_with_items`: transactionally insert the
list header and all items.  On a SQLAlchemyError the session is rolled back
(nothing of the run remains) and a DatabaseException is raised. -/
def create_with_items (db : DB) (failAt : Option Nat)
    (nm : String) (s e : Nat) (items : List ShoppingListItemData) :
    Except MealsError (ShoppingListRow × DB) :=
  if hitsFailure failAt (createWithItemsOps items) then
    Except.error (MealsError.databaseError "Failed to create shopping list with items")
  else
    let row : ShoppingListRow := ⟨db.next_id, nm, s, e, items⟩
    Except.ok (row,
      { db with shopping_lists := db.shopping_lists ++ [row],
                next_id := db.next_id + 1 })

/-- `BaseRepository.create` for a shopping list without items: add, commit
(two session operations); rollback and DatabaseException on failure. -/
def create_empty (db : DB) (failAt : Option Nat)
    (nm : String) (s e : Nat) :
    Except MealsError (ShoppingListRow × DB) :=
  if hitsFailure failAt 2 then
    Except.error (MealsError.databaseError "Failed to create ShoppingList")
  else
    let row : ShoppingListRow := ⟨db.next_id, nm, s, e, []⟩
    Except.ok (row,
      { db with shopping_lists := db.shopping_lists ++ [row],
                next_id := db.next_id + 1 })

/-- `ShoppingListRepository.get_with_items`: select the list by id with its
items. -/
def get_with_items (db : DB) (i : Nat) : Option ShoppingListRow :=
  db.shopping_lists.find? (fun l => l.id == i)

/-- Python `not s.strip()`: the string is empty or all whitespace. -/
def isBlank (s : String) : Bool :=
  s.data.all (fun c => c.isWhitespace)

/-- validate_required_fields for one item dict: ingredient_name and unit are
strings checked to be non-blank; total_quantity is a float and is present. -/
def itemFieldsOk (it : ShoppingListItemData) : Bool :=
  !isBlank it.ingredient_name && !isBlank it.unit

/-! ## ShoppingListViewModel.create_shopping_list (lines 32-82) -/

/-- `create_shopping_list`: validate the list fields and date range, validate
each item, then create (with items when given, empty otherwise) and re-read
the created list.  The third component counts store create operations
invoked. -/
def create_shopping_list (db : DB) (failAt : Option Nat)
    (nm : String) (s e : Nat) (items_data : List ShoppingListItemData) :
    Outcome ShoppingListRow × DB × Nat :=
  if isBlank nm then
    (Outcome.handled (MealsError.validationError "Missing required fields: name"), db, 0)
  else if s > e then
    (Outcome.handled (MealsError.validationError
      "Start date must be before or equal to end date"), db, 0)
  else if items_data.isEmpty then
    match create_empty db failAt nm s e with
    | Except.error err => (Outcome.handled err, db, 1)
    | Except.ok (row, db') =>
      match get_with_items db' row.id with
      | none => (Outcome.fault "pydantic model_validate on None", db', 1)
      | some r => (Outcome.ok r, db', 1)
  else if items_data.all itemFieldsOk then
    match create_with_items db failAt nm s e items_data with
    | Except.error err => (Outcome.handled err, db, 1)
    | Except.ok (row, db') =>
      match get_with_items db' row.id with
      | none => (Outcome.fault "pydantic model_validate on None", db', 1)
      | some r => (Outcome.ok r, db', 1)
  else
    (Outcome.handled (MealsError.validationError "Item: Missing required fields"), db, 0)

/-! ## ShoppingListViewModel.generate_shopping_list_from_meal_plans
(lines 269-327) -/

/-- The list name actually passed to the store (line 319): the Python loop
variable of line 308 shadows the `name` parameter, so after a non-empty
items loop it holds the name component of the last mapping entry. -/
def effectiveName (nm : String) (m : List (AggKey × ℚ)) : String :=
  match m.getLast? with
  | none => nm
  | some kv => kv.1.name

/-- `generate_shopping_list_from_meal_plans`: validate the range, fetch the
meal plans, resolve and aggregate every ingredient line, then create the
shopping list via `create_shopping_list`.  Returns the outcome, the store
state afterwards, and the collaborator-call trace. -/
def generate_shopping_list_from_meal_plans (db : DB) (failAt : Option Nat)
    (nm : String) (start_date end_date : Nat) :
    Outcome ShoppingListRow × DB × Trace :=
  if start_date > end_date then
    (Outcome.handled (MealsError.validationError
      "Start date must be before or equal to end date"), db, ⟨0, 0, 0⟩)
  else
    let meal_plans := get_by_date_range db start_date end_date
    if meal_plans.isEmpty then
      (Outcome.handled (MealsError.validationError
        ("No meal plans found between " ++ toString start_date ++ " and "
          ++ toString end_date)), db, ⟨1, 0, 0⟩)
    else
      match planLines db meal_plans with
      | none =>
        (Outcome.fault "AttributeError: NoneType object has no attribute ingredients",
          db,
          ⟨1 + planQueryCount db meal_plans, recipeQueriesTotal db meal_plans, 0⟩)
      | some lines =>
        let m := aggregate lines
        let items_data := buildItems m
        let r :=
          create_shopping_list db failAt (effectiveName nm m) start_date end_date items_data
        (r.1, r.2.1,
          ⟨1 + planQueryCount db meal_plans, recipeQueriesTotal db meal_plans, r.2.2⟩)

/-- Server-assigned ids in the store are fresh: every committed list has id
below next_id (auto-increment primary keys). -/
def freshIds (db : DB) : Prop :=
  ∀ l ∈ db.shopping_lists, l.id < db.next_id

instance (db : DB) : Decidable (freshIds db) :=
  inferInstanceAs (Decidable (∀ l ∈ db.shopping_lists, l.id < db.next_id))

/-! ## Lemmas about the aggregation mapping -/

theorem getQ_addLine_self (m : List (AggKey × ℚ)) (k : AggKey) (q : ℚ) :
    getQ (addLine m k q) k = some ((getQ m k).getD 0 + q) := by
  induction m with
  | nil => simp [addLine, getQ]
  | cons kv rest ih =>
    by_cases h : kv.1 = k
    · simp [addLine, getQ, h]
    · simp [addLine, getQ, h, ih]

theorem getQ_addLine_ne (m : List (AggKey × ℚ)) (k k' : AggKey) (q : ℚ)
    (h : k' ≠ k) :
    getQ (addLine m k q) k' = getQ m k' := by
  induction m with
  | nil => simp [addLine, getQ, Ne.symm h]
  | cons kv rest ih =>
    by_cases hk : kv.1 = k
    · subst hk
      simp [addLine, getQ, Ne.symm h]
    · simp only [addLine, if_neg hk]
      by_cases hk' : kv.1 = k'
      · simp [getQ, hk']
      · simp [getQ, hk', ih]

theorem sumKey_cons (i : Ingredient) (rest : List Ingredient) (k : AggKey) :
    sumKey (i :: rest) k =
      if keyOf i = k then i.quantity + sumKey rest k else sumKey rest k := by
  by_cases h : keyOf i = k <;> simp [sumKey, List.filter_cons, h]

theorem hasKey_cons (i : Ingredient) (rest : List Ingredient) (k : AggKey) :
    hasKey (i :: rest) k = (decide (keyOf i = k) || hasKey rest k) := by
  simp [hasKey]

theorem getQ_foldl (lines : List Ingredient) (m : List (AggKey × ℚ)) (k : AggKey) :
    getQ (lines.foldl (fun m i => addLine m (keyOf i) i.quantity) m) k =
      match getQ m k with
      | some v => some (v + sumKey lines k)
      | none => if hasKey lines k then some (sumKey lines k) else none := by
  induction lines generalizing m with
  | nil => cases h : getQ m k <;> simp [sumKey, hasKey, h]
  | cons i rest ih =>
    simp only [List.foldl_cons]
    rw [ih]
    by_cases hik : keyOf i = k
    · rw [hik, getQ_addLine_self]
      cases h : getQ m k with
      | none => simp [h, sumKey_cons, hasKey_cons, hik, add_assoc]
      | some v => simp [h, sumKey_cons, hasKey_cons, hik, add_assoc]
    · rw [getQ_addLine_ne m (keyOf i) k i.quantity (fun he => hik he.symm)]
      cases h : getQ m k with
      | none => simp [h, sumKey_cons, hasKey_cons, hik]
      | some v => simp [h, sumKey_cons, hasKey_cons, hik]

theorem getQ_aggregate (lines : List Ingredient) (k : AggKey) :
    getQ (aggregate lines) k =
      if hasKey lines k then some (sumKey lines k) else none := by
  have h := getQ_foldl lines [] k
  simpa [aggregate, getQ] using h

theorem sumKey_perm {lines₁ lines₂ : List Ingredient}
    (h : lines₁.Perm lines₂) (k : AggKey) :
    sumKey lines₁ k = sumKey lines₂ k :=
  ((h.filter (fun i => decide (keyOf i = k))).map Ingredient.quantity).sum_eq

theorem hasKey_perm {lines₁ lines₂ : List Ingredient}
    (h : lines₁.Perm lines₂) (k : AggKey) :
    hasKey lines₁ k = hasKey lines₂ k := by
  refine Bool.eq_iff_iff.mpr ?_
  simp only [hasKey, List.any_eq_true]
  constructor
  · rintro ⟨i, hi, hk⟩
    exact ⟨i, h.mem_iff.mp hi, hk⟩
  · rintro ⟨i, hi, hk⟩
    exact ⟨i, h.mem_iff.mpr hi, hk⟩

theorem getQ_aggregate_perm {lines₁ lines₂ : List Ingredient}
    (h : lines₁.Perm lines₂) (k : AggKey) :
    getQ (aggregate lines₁) k = getQ (aggregate lines₂) k := by
  rw [getQ_aggregate, getQ_aggregate, hasKey_perm h, sumKey_perm h]

/-- The keys of the mapping, in insertion order. -/
def keys (m : List (AggKey × ℚ)) : List AggKey :=
  m.map Prod.fst

theorem keys_addLine (m : List (AggKey × ℚ)) (k : AggKey) (q : ℚ) :
    keys (addLine m k q) = if k ∈ keys m then keys m else keys m ++ [k] := by
  induction m with
  | nil => simp [addLine, keys]
  | cons kv rest ih =>
    by_cases h : kv.1 = k
    · subst h
      simp [addLine, keys]
    · simp only [addLine, if_neg h, keys, List.map_cons] at ih ⊢
      rw [ih]
      by_cases hm : k ∈ rest.map Prod.fst
      · simp [hm, Ne.symm h]
      · simp [hm, Ne.symm h]

theorem nodup_keys_addLine {m : List (AggKey × ℚ)} (k : AggKey) (q : ℚ)
    (h : (keys m).Nodup) : (keys (addLine m k q)).Nodup := by
  rw [keys_addLine]
  by_cases hm : k ∈ keys m
  · simpa [hm] using h
  · simp only [hm, if_false]
    simpa [List.nodup_append, hm] using h

theorem nodup_keys_aggregate (lines : List Ingredient) :
    (keys (aggregate lines)).Nodup := by
  have main : ∀ m : List (AggKey × ℚ), (keys m).Nodup →
      (keys (lines.foldl (fun m i => addLine m (keyOf i) i.quantity) m)).Nodup := by
    induction lines with
    | nil => intro m hm; simpa using hm
    | cons i rest ih =>
      intro m hm
      simpa using ih _ (nodup_keys_addLine (keyOf i) i.quantity hm)
  exact main [] (by simp [keys])

theorem mem_of_getQ {m : List (AggKey × ℚ)} {k : AggKey} {q : ℚ}
    (h : getQ m k = some q) : (k, q) ∈ m := by
  induction m with
  | nil => simp [getQ] at h
  | cons kv rest ih =>
    by_cases hk : kv.1 = k
    · rw [getQ, if_pos hk] at h
      obtain ⟨a, b⟩ := kv
      simp only [Option.some.injEq] at h
      simp_all
    · rw [getQ, if_neg hk] at h
      exact List.mem_cons_of_mem _ (ih h)

theorem getQ_of_mem {m : List (AggKey × ℚ)} {k : AggKey} {q : ℚ}
    (hnd : (keys m).Nodup) (hm : (k, q) ∈ m) : getQ m k = some q := by
  induction m with
  | nil => simp at hm
  | cons kv rest ih =>
    have hpair : (∀ x : ℚ, (kv.1, x) ∉ rest) ∧ (rest.map Prod.fst).Nodup := by
      simpa [keys] using hnd
    rcases List.mem_cons.mp hm with heq | hmem
    · rw [← heq, getQ, if_pos rfl]
    · have hk : kv.1 ≠ k := by
        intro he
        exact hpair.1 q (by rw [he]; exact hmem)
      rw [getQ, if_neg hk]
      exact ih (by simpa [keys] using hpair.2) hmem

theorem mem_buildItems {m : List (AggKey × ℚ)} {it : ShoppingListItemData} :
    it ∈ buildItems m ↔
      ∃ kv ∈ m, it = ⟨kv.1.name, kv.2, kv.1.unit, kv.1.category, false⟩ := by
  simp only [buildItems, List.mem_map]
  constructor
  · rintro ⟨kv, hkv, rfl⟩
    exact ⟨kv, hkv, rfl⟩
  · rintro ⟨kv, hkv, rfl⟩
    exact ⟨kv, hkv, rfl⟩

theorem buildItems_not_purchased {m : List (AggKey × ℚ)}
    {it : ShoppingListItemData} (h : it ∈ buildItems m) :
    it.is_purchased = false := by
  obtain ⟨kv, _, rfl⟩ := mem_buildItems.mp h
  rfl

/-! ## Lemmas about recipe resolution -/

theorem recipeLines_some_eq {db : DB} :
    ∀ {rids : List Nat} {L : List Ingredient}, recipeLines db rids = some L →
      L = (rids.map (recipeLinesOf db)).flatten := by
  intro rids
  induction rids with
  | nil =>
    intro L h
    simp only [recipeLines, Option.some.injEq] at h
    simp [← h]
  | cons rid rest ih =>
    intro L h
    rw [recipeLines] at h
    cases hr : findRecipe db rid with
    | none => rw [hr] at h; cases h
    | some r =>
      rw [hr] at h
      obtain ⟨L', hL', hLL⟩ := Option.map_eq_some'.mp h
      rw [List.map_cons, List.flatten_cons, ← ih hL', ← hLL, recipeLinesOf, hr]
      rfl

theorem planLines_some_eq {db : DB} :
    ∀ {plans : List MealPlanRow} {L : List Ingredient}, planLines db plans = some L →
      L = (plans.map (planLinesOf db)).flatten := by
  intro plans
  induction plans with
  | nil =>
    intro L h
    simp only [planLines, Option.some.injEq] at h
    simp [← h]
  | cons p rest ih =>
    intro L h
    rw [planLines] at h
    cases hp : findPlan db p.id with
    | none => rw [hp] at h; cases h
    | some pFull =>
      rw [hp] at h
      simp only [] at h
      cases hr : recipeLines db pFull.recipeIds with
      | none => rw [hr] at h; cases h
      | some ls =>
        rw [hr] at h
        cases hrest : planLines db rest with
        | none => rw [hrest] at h; cases h
        | some more =>
          rw [hrest] at h
          simp only [Option.some.injEq] at h
          rw [List.map_cons, List.flatten_cons, ← ih hrest, ← h, planLinesOf, hp,
            recipeLines_some_eq hr]

/-- Permuting the meal-plan traversal order permutes the collected
ingredient lines. -/
theorem planLines_perm {db : DB} {plans₁ plans₂ : List MealPlanRow}
    {L₁ L₂ : List Ingredient} (hp : plans₁.Perm plans₂)
    (h₁ : planLines db plans₁ = some L₁) (h₂ : planLines db plans₂ = some L₂) :
    L₁.Perm L₂ := by
  rw [planLines_some_eq h₁, planLines_some_eq h₂]
  exact (hp.map (planLinesOf db)).flatten

/-! ## Lemmas about the store -/

theorem find?_append_fresh {l : List ShoppingListRow} {i : Nat}
    (h : ∀ x ∈ l, x.id ≠ i) (row : ShoppingListRow) (hrow : row.id = i) :
    (l ++ [row]).find? (fun x => x.id == i) = some row := by
  induction l with
  | nil => simp [List.find?, hrow]
  | cons a rest ih =>
    have ha : (a.id == i) = false := by
      simpa using h a (List.mem_cons_self a rest)
    rw [List.cons_append, List.find?_cons, ha]
    exact ih (fun x hx => h x (List.mem_cons_of_mem a hx))

theorem get_with_items_created (db : DB) (hf : freshIds db)
    (row : ShoppingListRow) (hrow : row.id = db.next_id) :
    get_with_items
      { db with shopping_lists := db.shopping_lists ++ [row],
                next_id := db.next_id + 1 } db.next_id = some row := by
  unfold get_with_items
  exact find?_append_fresh (fun x hx => Nat.ne_of_lt (hf x hx)) row hrow

theorem mem_of_getLast?_eq {α : Type} :
    ∀ {l : List α} {a : α}, l.getLast? = some a → a ∈ l
  | [], _, h => by simp at h
  | [b], a, h => by
    simp only [List.getLast?_singleton, Option.some.injEq] at h
    simp [h]
  | b :: c :: t, a, h => by
    rw [List.getLast?_cons_cons] at h
    exact List.mem_cons_of_mem _ (mem_of_getLast?_eq h)

/-- When the mapping is non-empty and every built item passes field
validation, the shadowed list name (the last entry's ingredient name) is
non-blank, so the name validation in create_shopping_list passes. -/
theorem effectiveName_ok (nm : String) (m : List (AggKey × ℚ)) (hm : m ≠ [])
    (h : (buildItems m).all itemFieldsOk = true) :
    isBlank (effectiveName nm m) = false := by
  unfold effectiveName
  cases hlast : m.getLast? with
  | none => exact absurd (List.getLast?_eq_none_iff.mp hlast) hm
  | some kv =>
    have hmem : kv ∈ m := mem_of_getLast?_eq hlast
    have hitem : (⟨kv.1.name, kv.2, kv.1.unit, kv.1.category, false⟩ :
        ShoppingListItemData) ∈ buildItems m :=
      List.mem_map.mpr ⟨kv, hmem, rfl⟩
    have hok := List.all_eq_true.mp h _ hitem
    simp only [itemFieldsOk, Bool.and_eq_true, Bool.not_eq_true'] at hok
    exact hok.1

theorem create_empty_ok {db : DB} {failAt : Option Nat} {nm : String} {s e : Nat}
    (h : hitsFailure failAt 2 = false) :
    create_empty db failAt nm s e =
      Except.ok (⟨db.next_id, nm, s, e, []⟩,
        { db with shopping_lists := db.shopping_lists ++ [⟨db.next_id, nm, s, e, []⟩],
                  next_id := db.next_id + 1 }) := by
  simp [create_empty, h]

theorem create_with_items_ok {db : DB} {failAt : Option Nat} {nm : String}
    {s e : Nat} {items : List ShoppingListItemData}
    (h : hitsFailure failAt (createWithItemsOps items) = false) :
    create_with_items db failAt nm s e items =
      Except.ok (⟨db.next_id, nm, s, e, items⟩,
        { db with shopping_lists := db.shopping_lists ++ [⟨db.next_id, nm, s, e, items⟩],
                  next_id := db.next_id + 1 }) := by
  simp [create_with_items, h]

theorem create_with_items_fail {db : DB} {failAt : Option Nat} {nm : String}
    {s e : Nat} {items : List ShoppingListItemData}
    (h : hitsFailure failAt (createWithItemsOps items) = true) :
    create_with_items db failAt nm s e items =
      Except.error (MealsError.databaseError "Failed to create shopping list with items") := by
  simp [create_with_items, h]

/-- Every run of create_shopping_list either reports a handled error with the
store unchanged, or returns exactly the created list. -/
theorem csl_cases (db : DB) (failAt : Option Nat) (nm : String) (s e : Nat)
    (items : List ShoppingListItemData) (hf : freshIds db) :
    (∃ err, create_shopping_list db failAt nm s e items =
      (Outcome.handled err, db, (create_shopping_list db failAt nm s e items).2.2)) ∨
    create_shopping_list db failAt nm s e items =
      (Outcome.ok ⟨db.next_id, nm, s, e, items⟩,
       { db with
           shopping_lists := db.shopping_lists ++ [⟨db.next_id, nm, s, e, items⟩],
           next_id := db.next_id + 1 }, 1) := by
  unfold create_shopping_list
  by_cases h1 : isBlank nm = true
  · left
    exact ⟨MealsError.validationError "Missing required fields: name", by simp [h1]⟩
  · rw [Bool.not_eq_true] at h1
    by_cases h2 : s > e
    · left
      exact ⟨MealsError.validationError "Start date must be before or equal to end date",
        by simp [h1, h2]⟩
    · by_cases h3 : items.isEmpty = true
      · have hitems : items = [] := List.isEmpty_iff.mp h3
        subst hitems
        by_cases h4 : hitsFailure failAt 2 = true
        · left
          refine ⟨MealsError.databaseError "Failed to create ShoppingList", ?_⟩
          simp [h1, h2, create_empty, h4]
        · right
          rw [Bool.not_eq_true] at h4
          simp only [h1, h2, if_false, Bool.false_eq_true, List.isEmpty_nil, if_true,
            create_empty_ok h4]
          rw [get_with_items_created db hf _ rfl]
      · rw [Bool.not_eq_true] at h3
        by_cases h5 : items.all itemFieldsOk = true
        · by_cases h6 : hitsFailure failAt (createWithItemsOps items) = true
          · left
            refine ⟨MealsError.databaseError "Failed to create shopping list with items", ?_⟩
            simp [h1, h2, h3, h5, create_with_items_fail h6]
          · right
            rw [Bool.not_eq_true] at h6
            simp only [h1, h2, h3, h5, if_false, if_true, Bool.false_eq_true,
              create_with_items_ok h6]
            rw [get_with_items_created db hf _ rfl]
        · left
          refine ⟨MealsError.validationError "Item: Missing required fields", ?_⟩
          simp only [Bool.not_eq_true] at h5
          simp [h1, h2, h3, h5]

/-- From a returned list we can read off exactly what was created. -/
theorem csl_ok_shape {db : DB} {failAt : Option Nat} {nm : String} {s e : Nat}
    {items : List ShoppingListItemData} {row : ShoppingListRow}
    (hf : freshIds db)
    (h : (create_shopping_list db failAt nm s e items).1 = Outcome.ok row) :
    row = ⟨db.next_id, nm, s, e, items⟩ := by
  rcases csl_cases db failAt nm s e items hf with ⟨err, heq⟩ | heq
  · rw [heq] at h
    simp at h
  · rw [heq] at h
    simpa [eq_comm] using h

theorem csl_store_fail {db : DB} {failAt : Option Nat} {nm : String} {s e : Nat}
    {items : List ShoppingListItemData}
    (hnm : isBlank nm = false) (hse : ¬ s > e)
    (hne : items.isEmpty = false) (hall : items.all itemFieldsOk = true)
    (hfail : hitsFailure failAt (createWithItemsOps items) = true) :
    create_shopping_list db failAt nm s e items =
      (Outcome.handled (MealsError.databaseError "Failed to create shopping list with items"),
        db, 1) := by
  unfold create_shopping_list
  simp [hnm, hse, hne, hall, create_with_items_fail hfail]

theorem csl_empty_success {db : DB} {nm : String} {s e : Nat}
    (hf : freshIds db) (hnm : isBlank nm = false) (hse : ¬ s > e) :
    create_shopping_list db none nm s e [] =
      (Outcome.ok ⟨db.next_id, nm, s, e, []⟩,
       { db with shopping_lists := db.shopping_lists ++ [⟨db.next_id, nm, s, e, []⟩],
                 next_id := db.next_id + 1 }, 1) := by
  unfold create_shopping_list
  have hce : hitsFailure (none : Option Nat) 2 = false := rfl
  simp only [hnm, Bool.false_eq_true, if_false, hse, List.isEmpty_nil, if_true,
    create_empty_ok hce]
  rw [get_with_items_created db hf _ rfl]

/-! ## Branch lemmas for the generation pipeline -/

theorem generate_invalid_range (db : DB) (failAt : Option Nat) (nm : String)
    {s e : Nat} (h : s > e) :
    generate_shopping_list_from_meal_plans db failAt nm s e =
      (Outcome.handled (MealsError.validationError
        "Start date must be before or equal to end date"), db, ⟨0, 0, 0⟩) := by
  unfold generate_shopping_list_from_meal_plans
  simp [h]

theorem generate_no_meal_plans (db : DB) (failAt : Option Nat) (nm : String)
    {s e : Nat} (h1 : ¬ s > e) (h2 : get_by_date_range db s e = []) :
    generate_shopping_list_from_meal_plans db failAt nm s e =
      (Outcome.handled (MealsError.validationError
        ("No meal plans found between " ++ toString s ++ " and " ++ toString e)),
        db, ⟨1, 0, 0⟩) := by
  unfold generate_shopping_list_from_meal_plans
  simp [h1, h2]

theorem generate_fault {db : DB} {failAt : Option Nat} {nm : String} {s e : Nat}
    (h1 : ¬ s > e) (h2 : get_by_date_range db s e ≠ [])
    (h3 : planLines db (get_by_date_range db s e) = none) :
    generate_shopping_list_from_meal_plans db failAt nm s e =
      (Outcome.fault "AttributeError: NoneType object has no attribute ingredients",
       db,
       ⟨1 + planQueryCount db (get_by_date_range db s e),
        recipeQueriesTotal db (get_by_date_range db s e), 0⟩) := by
  have hempty : (get_by_date_range db s e).isEmpty = false := by
    rw [← Bool.not_eq_true, List.isEmpty_iff]
    exact h2
  unfold generate_shopping_list_from_meal_plans
  simp [h1, hempty, h3]

theorem generate_reaches_create {db : DB} {failAt : Option Nat} {nm : String}
    {s e : Nat} {L : List Ingredient}
    (h1 : ¬ s > e) (h2 : get_by_date_range db s e ≠ [])
    (h3 : planLines db (get_by_date_range db s e) = some L) :
    generate_shopping_list_from_meal_plans db failAt nm s e =
      ((create_shopping_list db failAt (effectiveName nm (aggregate L)) s e
          (buildItems (aggregate L))).1,
       (create_shopping_list db failAt (effectiveName nm (aggregate L)) s e
          (buildItems (aggregate L))).2.1,
       ⟨1 + planQueryCount db (get_by_date_range db s e),
        recipeQueriesTotal db (get_by_date_range db s e),
        (create_shopping_list db failAt (effectiveName nm (aggregate L)) s e
          (buildItems (aggregate L))).2.2⟩) := by
  have hempty : (get_by_date_range db s e).isEmpty = false := by
    rw [← Bool.not_eq_true, List.isEmpty_iff]
    exact h2
  unfold generate_shopping_list_from_meal_plans
  simp [h1, hempty, h3]

/-! ## Claim C1 -/

/-- One breakfast meal plan whose recipe has a single ingredient 卵 (egg). -/
def db_C1 : DB :=
  ⟨[⟨1, "朝食メニュー", 1, "BREAKFAST", [1]⟩],
   [⟨1, "オムレツ", [⟨"卵", 2, "個", some "OTHER"⟩]⟩],
   [], 0⟩

/-- C1: the spec says the persisted shopping list carries the caller-supplied
name; the code does not.  The loop variable of line 308 shadows the `name`
parameter, so with the caller-supplied name 週末の買い物 the persisted list is
named after the last aggregated ingredient, 卵.  This contradicts the
repository's own integration test, which asserts the caller-supplied name. -/
theorem claim_C1_name_shadowed :
    (generate_shopping_list_from_meal_plans db_C1 none "週末の買い物" 1 2).1 =
      Outcome.ok ⟨0, "卵", 1, 2, [⟨"卵", 2, "個", some "OTHER", false⟩]⟩ ∧
    ("卵" : String) ≠ "週末の買い物" := by
  constructor
  · decide
  · decide

/-! ## Claim C5 -/

/-- C5: whenever start_date > end_date, generate reports InvalidRange (the
ValidationException of line 276), the store is unchanged, and the trace shows
zero meal-plan queries, zero recipe queries and zero store creates: the
failure precedes every lookup. -/
theorem claim_C5_invalid_range (db : DB) (failAt : Option Nat) (nm : String)
    {s e : Nat} (h : s > e) :
    generate_shopping_list_from_meal_plans db failAt nm s e =
      (Outcome.handled (MealsError.validationError
        "Start date must be before or equal to end date"), db, ⟨0, 0, 0⟩) :=
  generate_invalid_range db failAt nm h

/-- C5 witness: the concrete range of the spec, 2024-01-05 to 2024-01-01. -/
theorem claim_C5_witness :
    generate_shopping_list_from_meal_plans ⟨[], [], [], 0⟩ none "リスト" 20240105 20240101 =
      (Outcome.handled (MealsError.validationError
        "Start date must be before or equal to end date"), ⟨[], [], [], 0⟩, ⟨0, 0, 0⟩) :=
  claim_C5_invalid_range ⟨[], [], [], 0⟩ none "リスト" (by decide)

/-! ## Claim C6 -/

/-- C6: a valid range containing no meal plans reports NoMealPlansFound (the
ValidationException of line 281); the store is unchanged and the trace shows
one meal-plan range query, no recipe query, and zero store creates. -/
theorem claim_C6_no_meal_plans (db : DB) (failAt : Option Nat) (nm : String)
    {s e : Nat} (h1 : ¬ s > e) (h2 : get_by_date_range db s e = []) :
    generate_shopping_list_from_meal_plans db failAt nm s e =
      (Outcome.handled (MealsError.validationError
        ("No meal plans found between " ++ toString s ++ " and " ++ toString e)),
        db, ⟨1, 0, 0⟩) :=
  generate_no_meal_plans db failAt nm h1 h2

/-- C6 witness: an empty store over the range [1, 2]. -/
theorem claim_C6_witness :
    generate_shopping_list_from_meal_plans ⟨[], [], [], 5⟩ none "リスト" 1 2 =
      (Outcome.handled (MealsError.validationError
        ("No meal plans found between " ++ toString 1 ++ " and " ++ toString 2)),
        ⟨[], [], [], 5⟩, ⟨1, 0, 0⟩) :=
  claim_C6_no_meal_plans ⟨[], [], [], 5⟩ none "リスト" (by decide) (by decide)

/-! ## Claim C7 -/

/-- A meal plan referencing recipe id 99, which does not exist. -/
def db_C7 : DB :=
  ⟨[⟨1, "夕食メニュー", 1, "DINNER", [99]⟩], [], [], 0⟩

/-- C7 counterexample: with a dangling recipe reference, the generation does
not surface a typed failure result: the unresolved recipe makes line 296
dereference Python None, and the resulting AttributeError is not caught by
the `except (ValidationException, DatabaseException)` handler — the run ends
in an unhandled fault, not a reported RecipeResolutionFailure. -/
theorem claim_C7_counterexample :
    (generate_shopping_list_from_meal_plans db_C7 none "リスト" 1 1).1 =
      Outcome.fault "AttributeError: NoneType object has no attribute ingredients" := by
  decide

/-- C7 amended: when a referenced recipe cannot be resolved, the whole
generation aborts before any store write (store unchanged, zero creates),
but it surfaces as an uncaught AttributeError fault rather than as a typed
failure result. -/
theorem claim_C7_amended {db : DB} {failAt : Option Nat} {nm : String} {s e : Nat}
    (h1 : ¬ s > e) (h2 : get_by_date_range db s e ≠ [])
    (h3 : planLines db (get_by_date_range db s e) = none) :
    generate_shopping_list_from_meal_plans db failAt nm s e =
      (Outcome.fault "AttributeError: NoneType object has no attribute ingredients",
       db,
       ⟨1 + planQueryCount db (get_by_date_range db s e),
        recipeQueriesTotal db (get_by_date_range db s e), 0⟩) :=
  generate_fault h1 h2 h3

/-- C7 witness: the dangling-reference store above. -/
theorem claim_C7_witness :
    generate_shopping_list_from_meal_plans db_C7 none "リスト" 1 1 =
      (Outcome.fault "AttributeError: NoneType object has no attribute ingredients",
       db_C7,
       ⟨1 + planQueryCount db_C7 (get_by_date_range db_C7 1 1),
        recipeQueriesTotal db_C7 (get_by_date_range db_C7 1 1), 0⟩) :=
  claim_C7_amended (by decide) (by decide) (by decide)

/-! ## Claim C2 -/

/-- Two meal plans on different days, each referencing a recipe with the
single ingredient (egg, 2, 個, OTHER). -/
def db_C2 : DB :=
  ⟨[⟨1, "day1", 1, "BREAKFAST", [1]⟩, ⟨2, "day2", 2, "BREAKFAST", [2]⟩],
   [⟨1, "recipe1", [⟨"egg", 2, "個", some "OTHER"⟩]⟩,
    ⟨2, "recipe2", [⟨"egg", 2, "個", some "OTHER"⟩]⟩],
   [], 0⟩

/-- C2: each ingredient line is folded into its key's mapping entry — an
absent key is inserted with the line's quantity, a present key has the
quantity added to the running total — and the concrete two-meal-plan egg
scenario produces exactly one item for key (egg, 個, OTHER) with
total_quantity 4. -/
theorem claim_C2_fold_and_sum (m : List (AggKey × ℚ)) (i : Ingredient) :
    getQ (addLine m (keyOf i) i.quantity) (keyOf i) =
      (match getQ m (keyOf i) with
       | none => some i.quantity
       | some v => some (v + i.quantity)) ∧
    (generate_shopping_list_from_meal_plans db_C2 none "買い物" 1 2).1 =
      Outcome.ok ⟨0, "egg", 1, 2, [⟨"egg", 4, "個", some "OTHER", false⟩]⟩ := by
  constructor
  · rw [getQ_addLine_self]
    cases h : getQ m (keyOf i) with
    | none => simp [h]
    | some v => simp [h]
  · have hL : planLines db_C2 (get_by_date_range db_C2 1 2) =
        some [⟨"egg", 2, "個", some "OTHER"⟩, ⟨"egg", 2, "個", some "OTHER"⟩] := by
      decide
    rw [generate_reaches_create (by decide) (by decide) hL]
    have hagg : aggregate [⟨"egg", 2, "個", some "OTHER"⟩, ⟨"egg", 2, "個", some "OTHER"⟩] =
        [(⟨"egg", "個", some "OTHER"⟩, 4)] := by
      norm_num [aggregate, addLine, keyOf]
    rw [hagg]
    decide

/-! ## Claim C3 -/

def plan_C3a : MealPlanRow := ⟨1, "a", 1, "BREAKFAST", [1]⟩

def plan_C3b : MealPlanRow := ⟨2, "b", 2, "LUNCH", [2]⟩

/-- Two recipes with egg quantities 2 and 3, so the merged total is 5. -/
def db_C3 : DB :=
  ⟨[plan_C3a, plan_C3b],
   [⟨1, "r1", [⟨"egg", 2, "個", some "OTHER"⟩]⟩,
    ⟨2, "r2", [⟨"egg", 3, "個", some "OTHER"⟩]⟩],
   [], 0⟩

/-! Binary64 model for claim C3.  The program adds Python floats
(`ingredients_map[key] += ingredient.quantity`, line 302), i.e. IEEE-754
binary64: the stored result is the nearest-even rounding of the exact sum.
Rational addition is associative but binary64 addition is not, so the
order-independence claim must be checked against the float semantics.  The
model below implements binary64 nearest-even rounding restricted to
nonnegative integer-valued doubles below 2^64 — every quantity, partial sum
and exact sum appearing in the counterexample is such an integer, and on
integers the rounding is exactly: values below 2^53 are kept, larger values
snap to the nearest multiple of 2^(floor(log2 n) - 52), ties to the even
multiple. -/

/-- Fuel-bounded floor of log base 2 (exact for positive n below 2^fuel). -/
def log2floorAux : Nat → Nat → Nat
  | 0, _ => 0
  | f + 1, n => if n ≤ 1 then 0 else log2floorAux f (n / 2) + 1

/-- Floor of log base 2, exact for positive n below 2^64. -/
def log2floorNat (n : Nat) : Nat :=
  log2floorAux 64 n

/-- IEEE-754 binary64 round-to-nearest-even of a nonnegative integer below
2^64 (9007199254740992 is 2^53, the first length at which integers stop
being exactly representable). -/
def roundB64Nat (n : Nat) : Nat :=
  if n < 9007199254740992 then n
  else
    let u := 2 ^ (log2floorNat n - 52)
    let q := n / u
    let r := n % u
    if 2 * r < u then q * u
    else if u < 2 * r then (q + 1) * u
    else if q % 2 = 0 then q * u
    else (q + 1) * u

/-- Python float addition on nonnegative integer-valued doubles whose exact
sum is below 2^64: binary64 returns the rounding of the exact sum. -/
def floatAddNat (a b : Nat) : Nat :=
  roundB64Nat (a + b)

/-- The dict update of lines 300-304 with the program's float addition:
insert the stored double if the key is absent, otherwise add with binary64
addition (quantities restricted to integer-valued doubles). -/
def addLineF : List (AggKey × Nat) → AggKey → Nat → List (AggKey × Nat)
  | [], k, q => [(k, q)]
  | kv :: rest, k, q =>
    if kv.1 = k then (kv.1, floatAddNat kv.2 q) :: rest
    else kv :: addLineF rest k q

/-- The ingredients_map fold of lines 284-304 over (key, quantity) ingredient
lines in traversal order, with binary64 addition. -/
def aggregateF (lines : List (AggKey × Nat)) : List (AggKey × Nat) :=
  lines.foldl (fun m kq => addLineF m kq.1 kq.2) []

/-- Lookup in the float-level mapping. -/
def getQF : List (AggKey × Nat) → AggKey → Option Nat
  | [], _ => none
  | kv :: rest, k => if kv.1 = k then some kv.2 else getQF rest k

/-- C3 counterexample: the claim as stated fails on the program.  Three meal
plans each contribute one egg line, with quantities 10^16, 1 and 1 (all
exactly representable doubles).  Traversing them in one order totals 10^16;
traversing the permuted order totals 10^16 + 2.  Reason: 10^16 + 1 lies
exactly halfway between the neighbouring doubles 10^16 and 10^16 + 2 (the
spacing there is 2) and nearest-even rounding drops each added 1, while
adding the two 1s first gives the exactly representable 10^16 + 2.  So the
permuted traversals do not produce the same total quantity for the key. -/
theorem claim_C3_counterexample :
    ([(⟨"egg", "個", some "OTHER"⟩, 10000000000000000), (⟨"egg", "個", some "OTHER"⟩, 1),
      (⟨"egg", "個", some "OTHER"⟩, 1)] : List (AggKey × Nat)).Perm
      [(⟨"egg", "個", some "OTHER"⟩, 1), (⟨"egg", "個", some "OTHER"⟩, 1),
       (⟨"egg", "個", some "OTHER"⟩, 10000000000000000)] ∧
    getQF (aggregateF [(⟨"egg", "個", some "OTHER"⟩, 10000000000000000),
        (⟨"egg", "個", some "OTHER"⟩, 1), (⟨"egg", "個", some "OTHER"⟩, 1)])
      ⟨"egg", "個", some "OTHER"⟩ = some 10000000000000000 ∧
    getQF (aggregateF [(⟨"egg", "個", some "OTHER"⟩, 1), (⟨"egg", "個", some "OTHER"⟩, 1),
        (⟨"egg", "個", some "OTHER"⟩, 10000000000000000)])
      ⟨"egg", "個", some "OTHER"⟩ = some 10000000000000002 := by
  refine ⟨?_, by decide, by decide⟩
  decide

/-- C3 amended: under exact decimal arithmetic on quantities (the spec's
data-model type), permuting the meal-plan traversal order is immaterial: the
mapping assigns every key the same total and the built item lists have the
same members.  Under the program's binary64 float addition this exact-total
equality can fail at extreme magnitudes (see the counterexample); the key
sets still agree, and totals agree whenever every intermediate addition is
exact, as with the small integral quantities of the tests. -/
theorem claim_C3_order_independence {db : DB} {plans₁ plans₂ : List MealPlanRow}
    {L₁ L₂ : List Ingredient} (hp : plans₁.Perm plans₂)
    (h₁ : planLines db plans₁ = some L₁) (h₂ : planLines db plans₂ = some L₂) :
    (∀ k, getQ (aggregate L₁) k = getQ (aggregate L₂) k) ∧
    (∀ it, it ∈ buildItems (aggregate L₁) ↔ it ∈ buildItems (aggregate L₂)) := by
  have hL : L₁.Perm L₂ := planLines_perm hp h₁ h₂
  have hgetQ : ∀ k, getQ (aggregate L₁) k = getQ (aggregate L₂) k :=
    fun k => getQ_aggregate_perm hL k
  refine ⟨hgetQ, fun it => ⟨?_, ?_⟩⟩
  · intro h
    obtain ⟨kv, hkv, rfl⟩ := mem_buildItems.mp h
    have hq1 : getQ (aggregate L₁) kv.1 = some kv.2 :=
      getQ_of_mem (nodup_keys_aggregate L₁) (by simpa using hkv)
    have hq2 : getQ (aggregate L₂) kv.1 = some kv.2 := (hgetQ kv.1) ▸ hq1
    exact mem_buildItems.mpr ⟨(kv.1, kv.2), mem_of_getQ hq2, rfl⟩
  · intro h
    obtain ⟨kv, hkv, rfl⟩ := mem_buildItems.mp h
    have hq2 : getQ (aggregate L₂) kv.1 = some kv.2 :=
      getQ_of_mem (nodup_keys_aggregate L₂) (by simpa using hkv)
    have hq1 : getQ (aggregate L₁) kv.1 = some kv.2 := (hgetQ kv.1).symm ▸ hq2
    exact mem_buildItems.mpr ⟨(kv.1, kv.2), mem_of_getQ hq1, rfl⟩

/-- C3 witness: swapping the two meal plans of db_C3 leaves the total for
the egg key unchanged. -/
theorem claim_C3_witness :
    getQ (aggregate [⟨"egg", 2, "個", some "OTHER"⟩, ⟨"egg", 3, "個", some "OTHER"⟩])
        ⟨"egg", "個", some "OTHER"⟩ =
      getQ (aggregate [⟨"egg", 3, "個", some "OTHER"⟩, ⟨"egg", 2, "個", some "OTHER"⟩])
        ⟨"egg", "個", some "OTHER"⟩ :=
  (@claim_C3_order_independence db_C3 [plan_C3a, plan_C3b] [plan_C3b, plan_C3a]
    [⟨"egg", 2, "個", some "OTHER"⟩, ⟨"egg", 3, "個", some "OTHER"⟩]
    [⟨"egg", 3, "個", some "OTHER"⟩, ⟨"egg", 2, "個", some "OTHER"⟩]
    (List.Perm.swap plan_C3b plan_C3a [])
    (by decide) (by decide)).1 ⟨"egg", "個", some "OTHER"⟩

/-! ## Claim C4 -/

/-- C4: lines agreeing on name and category but differing in unit have
different aggregation keys, each key's item carries only the exactly-matching
quantities, and in general every key's total is the sum over lines whose
key — unit included — matches exactly, so no unit conversion ever happens. -/
theorem claim_C4_unit_sensitivity {lines : List Ingredient} {i₁ i₂ : Ingredient}
    (h₁ : i₁ ∈ lines) (h₂ : i₂ ∈ lines)
    (hn : i₁.name = i₂.name) (hc : i₁.category = i₂.category)
    (hu : i₁.unit ≠ i₂.unit) :
    keyOf i₁ ≠ keyOf i₂ ∧
    getQ (aggregate lines) (keyOf i₁) = some (sumKey lines (keyOf i₁)) ∧
    getQ (aggregate lines) (keyOf i₂) = some (sumKey lines (keyOf i₂)) ∧
    (∀ k, getQ (aggregate lines) k =
      if hasKey lines k then some (sumKey lines k) else none) := by
  have hkey : keyOf i₁ ≠ keyOf i₂ := by
    intro h
    exact hu (congrArg AggKey.unit h)
  have hk1 : hasKey lines (keyOf i₁) = true :=
    List.any_eq_true.mpr ⟨i₁, h₁, by simp⟩
  have hk2 : hasKey lines (keyOf i₂) = true :=
    List.any_eq_true.mpr ⟨i₂, h₂, by simp⟩
  refine ⟨hkey, ?_, ?_, fun k => getQ_aggregate lines k⟩
  · rw [getQ_aggregate, hk1, if_pos rfl]
  · rw [getQ_aggregate, hk2, if_pos rfl]

def flour_g : Ingredient := ⟨"小麦粉", 100, "g", some "GRAIN"⟩

def flour_ml : Ingredient := ⟨"小麦粉", 100, "ml", some "GRAIN"⟩

/-- C4 witness: 100 g and 100 ml of flour stay separate entries. -/
theorem claim_C4_witness :
    keyOf flour_g ≠ keyOf flour_ml ∧
    getQ (aggregate [flour_g, flour_ml]) (keyOf flour_g) =
      some (sumKey [flour_g, flour_ml] (keyOf flour_g)) ∧
    getQ (aggregate [flour_g, flour_ml]) (keyOf flour_ml) =
      some (sumKey [flour_g, flour_ml] (keyOf flour_ml)) := by
  have h := @claim_C4_unit_sensitivity [flour_g, flour_ml] flour_g flour_ml
    (by simp) (by simp) rfl rfl (by decide)
  exact ⟨h.1, h.2.1, h.2.2.1⟩

/-! ## Claim C8 -/

/-- C8: if the store's create-with-items write fails at any of its session
operations, generate surfaces the DatabaseException as a handled failure and
the rollback leaves the store exactly as before — no shopping list and no
partial item set of the run remains (all items or none). -/
theorem claim_C8_atomic_store_failure {db : DB} {k : Nat} {nm : String}
    {s e : Nat} {L : List Ingredient}
    (h1 : ¬ s > e) (h2 : get_by_date_range db s e ≠ [])
    (h3 : planLines db (get_by_date_range db s e) = some L)
    (h4 : aggregate L ≠ [])
    (h5 : (buildItems (aggregate L)).all itemFieldsOk = true)
    (hk : k < createWithItemsOps (buildItems (aggregate L))) :
    generate_shopping_list_from_meal_plans db (some k) nm s e =
      (Outcome.handled (MealsError.databaseError "Failed to create shopping list with items"),
       db,
       ⟨1 + planQueryCount db (get_by_date_range db s e),
        recipeQueriesTotal db (get_by_date_range db s e), 1⟩) := by
  have hname := effectiveName_ok nm (aggregate L) h4 h5
  have hfail : hitsFailure (some k) (createWithItemsOps (buildItems (aggregate L))) = true := by
    simp [hitsFailure, hk]
  have hne : (buildItems (aggregate L)).isEmpty = false := by
    cases hagg : aggregate L with
    | nil => exact absurd hagg h4
    | cons a t => simp [buildItems]
  rw [generate_reaches_create h1 h2 h3, csl_store_fail hname h1 hne h5 hfail]

/-- The egg store again, under an injected write failure. -/
def db_C8 : DB :=
  ⟨[⟨1, "朝食", 1, "BREAKFAST", [1]⟩],
   [⟨1, "オムレツ", [⟨"卵", 2, "個", some "OTHER"⟩]⟩],
   [], 0⟩

/-- C8 witness: failing the very first session operation leaves db_C8
untouched and reports the database error. -/
theorem claim_C8_witness :
    generate_shopping_list_from_meal_plans db_C8 (some 0) "リスト" 1 2 =
      (Outcome.handled (MealsError.databaseError "Failed to create shopping list with items"),
       db_C8,
       ⟨1 + planQueryCount db_C8 (get_by_date_range db_C8 1 2),
        recipeQueriesTotal db_C8 (get_by_date_range db_C8 1 2), 1⟩) :=
  @claim_C8_atomic_store_failure db_C8 0 "リスト" 1 2 [⟨"卵", 2, "個", some "OTHER"⟩]
    (by decide) (by decide) (by decide) (by decide) (by decide) (by decide)

/-! ## Claim C9 -/

/-- C9: every item of a successfully generated shopping list has
is_purchased = false at creation. -/
theorem claim_C9_items_unpurchased {db : DB} {failAt : Option Nat} {nm : String}
    {s e : Nat} {row : ShoppingListRow} (hf : freshIds db)
    (h : (generate_shopping_list_from_meal_plans db failAt nm s e).1 = Outcome.ok row) :
    ∀ it ∈ row.items, it.is_purchased = false := by
  by_cases h1 : s > e
  · rw [generate_invalid_range db failAt nm h1] at h
    simp at h
  · by_cases h2 : get_by_date_range db s e = []
    · rw [generate_no_meal_plans db failAt nm h1 h2] at h
      simp at h
    · cases h3 : planLines db (get_by_date_range db s e) with
      | none =>
        rw [generate_fault h1 h2 h3] at h
        simp at h
      | some L =>
        rw [generate_reaches_create h1 h2 h3] at h
        have hrow := csl_ok_shape hf h
        intro it hit
        rw [hrow] at hit
        exact buildItems_not_purchased (by simpa using hit)

def db_C9 : DB :=
  ⟨[⟨1, "夕食", 1, "DINNER", [1]⟩],
   [⟨1, "カレー", [⟨"じゃがいも", 3, "個", some "VEGETABLE"⟩]⟩],
   [], 0⟩

/-- C9 witness: the single generated item of db_C9 is unpurchased. -/
theorem claim_C9_witness :
    (⟨"じゃがいも", 3, "個", some "VEGETABLE", false⟩ : ShoppingListItemData).is_purchased
      = false :=
  @claim_C9_items_unpurchased db_C9 none "リスト" 1 2
    ⟨0, "じゃがいも", 1, 2, [⟨"じゃがいも", 3, "個", some "VEGETABLE", false⟩]⟩
    (by decide) (by decide)
    ⟨"じゃがいも", 3, "個", some "VEGETABLE", false⟩ (by decide)

/-! ## Claim C10 -/

/-- C10: a range with meal plans whose referenced recipes contribute no
ingredient lines succeeds: an empty-item shopping list is created (here the
caller's name survives, since the shadowing loop never runs). -/
theorem claim_C10_empty_item_set {db : DB} {nm : String} {s e : Nat}
    (hf : freshIds db)
    (h1 : ¬ s > e) (h2 : get_by_date_range db s e ≠ [])
    (h3 : planLines db (get_by_date_range db s e) = some [])
    (hnm : isBlank nm = false) :
    generate_shopping_list_from_meal_plans db none nm s e =
      (Outcome.ok ⟨db.next_id, nm, s, e, []⟩,
       { db with shopping_lists := db.shopping_lists ++ [⟨db.next_id, nm, s, e, []⟩],
                 next_id := db.next_id + 1 },
       ⟨1 + planQueryCount db (get_by_date_range db s e),
        recipeQueriesTotal db (get_by_date_range db s e), 1⟩) := by
  rw [generate_reaches_create h1 h2 h3]
  have hagg : aggregate ([] : List Ingredient) = [] := rfl
  rw [hagg]
  have hcsl := @csl_empty_success db nm s e hf hnm h1
  simp only [buildItems, List.map_nil, effectiveName, List.getLast?_nil, hcsl]

/-- A meal plan that references no recipes at all. -/
def db_C10 : DB :=
  ⟨[⟨1, "空の日", 1, "LUNCH", []⟩], [], [], 0⟩

/-- C10 witness: generation over db_C10 creates a list with no items. -/
theorem claim_C10_witness :
    generate_shopping_list_from_meal_plans db_C10 none "空リスト" 1 1 =
      (Outcome.ok ⟨0, "空リスト", 1, 1, []⟩,
       { db_C10 with shopping_lists := db_C10.shopping_lists ++ [⟨0, "空リスト", 1, 1, []⟩],
                     next_id := 1 },
       ⟨1 + planQueryCount db_C10 (get_by_date_range db_C10 1 1),
        recipeQueriesTotal db_C10 (get_by_date_range db_C10 1 1), 1⟩) :=
  claim_C10_empty_item_set (by decide) (by decide) (by decide) (by decide) (by decide)

end MealPlanner
